import Mathlib

/-!
Verification of the conversation-aware retrieval pipeline in
`langchain/chains/conversational_retrieval/base.py`.

The embedding models Python dict values restricted to the shapes the code
manipulates (`PVal`), the dialogue-turn union type (`ChatTurn`), the filter
simplification, the history formatter, the token-budget reducer, and the
synchronous (`_call`) and asynchronous (`_acall`) orchestrators.  External
collaborators (question generator, document retrieval, answer synthesis) are
passed in as function parameters, following the collaborator contracts of the
specification; raised Python exceptions are modelled as `Except.error`.
-/

namespace ConvRetrieval

/-- Python values appearing in filter dictionaries: `None`, strings,
dicts (association lists, insertion-ordered like Python dicts), and lists. -/
inductive PVal where
  | none
  | str (s : String)
  | dict (entries : List (String × PVal))
  | list (elems : List PVal)

/-- Python `key in d` for dict values (the source only applies `in` to dicts
on the reachable paths; non-dicts yield `false`). -/
def PVal.hasKey : PVal → String → Bool
  | PVal.dict d, k => (d.lookup k).isSome
  | _, _ => false

/-- Python subscription `v[k]`: dict lookup, `KeyError` when the key is
missing, `TypeError` on non-dict values. -/
def PVal.getItem : PVal → String → Except String PVal
  | PVal.dict d, k =>
    match d.lookup k with
    | some v => Except.ok v
    | Option.none => Except.error ("KeyError: " ++ k)
  | _, _ => Except.error "TypeError: value is not subscriptable"

/-- Python iteration over a list value; `TypeError` on non-lists. -/
def PVal.asList : PVal → Except String (List PVal)
  | PVal.list l => Except.ok l
  | _ => Except.error "TypeError: value is not a list"

/-- Python `.items()` on a dict value; `AttributeError` on non-dicts. -/
def PVal.itemList : PVal → Except String (List (String × PVal))
  | PVal.dict d => Except.ok d
  | _ => Except.error "AttributeError: value has no items"

/-- Python `filter is None or filter == 'No filters applied'` (base.py line 118). -/
def isAbsentFilter : PVal → Bool
  | PVal.none => true
  | PVal.str s => s == "No filters applied"
  | _ => false

/-- The simplified filter: either the sentinel string `'No filters applied'`
or a dict mapping each field to the ordered list of its equality values. -/
inductive SimplifiedFilter where
  | sentinel
  | mapping (m : List (String × List PVal))

/-- `if key in simplified: simplified[key].append(v) else simplified[key] = [v]`
on an insertion-ordered association list (base.py lines 134-137, 141-144). -/
def appendValue : List (String × List PVal) → String → PVal → List (String × List PVal)
  | [], key, v => [(key, [v])]
  | (k, vs) :: rest, key, v =>
    if k = key then (k, vs ++ [v]) :: rest
    else (k, vs) :: appendValue rest key v

/-- Process one leaf dict: `for key, value in leaf.items(): ... value['$eq'] ...`
(base.py lines 132-137 and 140-144). -/
def simplifyLeaf (acc : List (String × List PVal)) (leaf : PVal) :
    Except String (List (String × List PVal)) := do
  let its ← leaf.itemList
  its.foldlM (fun a kv => do
    let e ← kv.2.getItem "$eq"
    pure (appendValue a kv.1 e)) acc

/-- Process one condition of the `conditions` list (base.py lines 128-144):
iterate the `$or` children if present, else treat the condition as a leaf. -/
def simplifyCond (acc : List (String × List PVal)) (cond : PVal) :
    Except String (List (String × List PVal)) :=
  if cond.hasKey "$or" then do
    let ors ← cond.getItem "$or" >>= PVal.asList
    ors.foldlM simplifyLeaf acc
  else
    simplifyLeaf acc cond

/-- The filter simplification of base.py lines 118-144: sentinel for an absent
filter, otherwise a two-level AND-of-ORs-of-equality flattening. -/
def simplifyFilter (filter : PVal) : Except String SimplifiedFilter :=
  if isAbsentFilter filter then
    Except.ok SimplifiedFilter.sentinel
  else do
    let conditions ←
      if filter.hasKey "$and" then filter.getItem "$and" >>= PVal.asList
      else pure [filter]
    let m ← conditions.foldlM simplifyCond []
    pure (SimplifiedFilter.mapping m)

/-- A dialogue-turn value as `_get_chat_history` can receive it.  The declared
type is `CHAT_TURN_TYPE = Union[Tuple[str, str], BaseMessage]`, but the code
branches on `isinstance(dialogue_turn, tuple)`, which accepts a tuple of any
arity; `tuple` therefore carries an arbitrary element list.  The `other`
constructor stands for any Python value that is neither a `BaseMessage` nor a
tuple. -/
inductive ChatTurn where
  | message (type content : String)
  | tuple (elems : List String)
  | other
  deriving DecidableEq, Repr

/-- The turn is a structured message (`isinstance(dialogue_turn, BaseMessage)`). -/
def ChatTurn.isStructuredMessage : ChatTurn → Bool
  | ChatTurn.message _ _ => true
  | _ => false

/-- The turn is a two-element pair, the legacy form named by the spec. -/
def ChatTurn.isTwoElementPair : ChatTurn → Bool
  | ChatTurn.tuple [_, _] => true
  | _ => false

/-- The turn formats without raising: a structured message, or a tuple with at
least two elements (the source reads only `dialogue_turn[0]` and
`dialogue_turn[1]`). -/
def isFormattable : ChatTurn → Bool
  | ChatTurn.message _ _ => true
  | ChatTurn.tuple (_ :: _ :: _) => true
  | _ => false

/-- The turn is a tuple with fewer than two elements, whose indexing raises
`IndexError` in the source. -/
def isShortTuple : ChatTurn → Bool
  | ChatTurn.tuple [] => true
  | ChatTurn.tuple [_] => true
  | _ => false

/-- `_ROLE_MAP` of base.py line 31. -/
def ROLE_MAP : List (String × String) := [("human", "Human: "), ("ai", "Assistant: ")]

/-- `_ROLE_MAP.get(t, f"{t}: ")` (base.py line 38). -/
def rolePrefix (type : String) : String :=
  match ROLE_MAP.lookup type with
  | some p => p
  | Option.none => type ++ ": "

/-- The loop body of `_get_chat_history` (base.py lines 35-49), accumulating
the buffer.  A tuple of any arity takes the `isinstance(..., tuple)` branch:
its first two elements are formatted (further elements are ignored), and a
tuple with fewer than two elements raises `IndexError` at the subscription.
A value that is neither a message nor a tuple raises the `ValueError` of
lines 45-48.  Either exception discards the buffer. -/
def getChatHistoryAux (buffer : String) : List ChatTurn → Except String String
  | [] => Except.ok buffer
  | t :: rest =>
    match t with
    | ChatTurn.message ty c =>
        getChatHistoryAux (buffer ++ "\n" ++ rolePrefix ty ++ c) rest
    | ChatTurn.tuple elems =>
        match elems with
        | e0 :: e1 :: _ =>
            getChatHistoryAux
              (buffer ++ "\n" ++ ("Human: " ++ e0) ++ "\n" ++ ("Assistant: " ++ e1)) rest
        | _ => Except.error "IndexError: tuple index out of range"
    | ChatTurn.other =>
        Except.error "ValueError: Unsupported chat history format"

/-- `_get_chat_history` of base.py lines 34-49. -/
def getChatHistory (chat_history : List ChatTurn) : Except String String :=
  getChatHistoryAux "" chat_history

/-- A retrieved document: text body plus opaque metadata, never mutated. -/
structure Document where
  page_content : String
  metadata : List (String × PVal) := []

/-- The `while token_count > self.max_tokens_limit` loop of base.py lines
247-249, structurally recursive on `num_docs`.  The `0` case with
`token_count > limit` is unreachable for the actual initial value
(`token_count` is the sum of the first `num_docs` token costs, which is `0`
when `num_docs = 0`). -/
def shrinkNumDocs (tokens : List Nat) (limit : Nat) : Nat → Nat → Nat
  | 0, _ => 0
  | num_docs + 1, token_count =>
    if token_count > limit then
      shrinkNumDocs tokens limit num_docs (token_count - tokens.getD num_docs 0)
    else
      num_docs + 1

/-- `ConversationalRetrievalChain._reduce_tokens_below_limit` (base.py lines
236-251).  `max_tokens_limit` is `Optional[int]` (non-negative in this model);
`isStuffChain` models `isinstance(self.combine_docs_chain, StuffDocumentsChain)`;
`getNumTokens` is the external tokenizer collaborator. -/
def reduceTokensBelowLimit (max_tokens_limit : Option Nat) (isStuffChain : Bool)
    (getNumTokens : String → Nat) (docs : List Document) : List Document :=
  let num_docs := docs.length
  match max_tokens_limit with
  | Option.none => docs.take num_docs
  | some limit =>
    if limit != 0 && isStuffChain then
      let tokens := docs.map (fun d => getNumTokens d.page_content)
      let token_count := (tokens.take num_docs).sum
      docs.take (shrinkNumDocs tokens limit num_docs token_count)
    else
      docs.take num_docs

/-- `ConversationalRetrievalChain._get_docs` (base.py lines 253-255):
delegates to the retriever (`get_relevant_documents` returns a document list)
and applies the token-budget reduction.  The result is a plain document list
— this variant was not updated to the (documents, count) pair protocol that
the updated `_call` destructures at line 146. -/
def conversationalRetrieval_getDocs (get_relevant_documents : String → List Document)
    (max_tokens_limit : Option Nat) (isStuffChain : Bool) (getNumTokens : String → Nat)
    (question : String) : List Document :=
  reduceTokensBelowLimit max_tokens_limit isStuffChain getNumTokens
    (get_relevant_documents question)

/-- Python iterable unpacking `relevant_docs, n_post_filters = xs` (base.py
line 146) applied to a list: it succeeds only when the list has exactly two
elements, binding them in order (both are documents, not a count); any other
length raises `ValueError`. -/
def unpackTwo : List Document → Except String (Document × Document)
  | [d1, d2] => Except.ok (d1, d2)
  | _ => Except.error "ValueError: unpacking requires exactly two values"

/-- The inputs mapping of one invocation: `question`, `chat_history`, and the
optional `search_kwargs` dict (whose `filter` entry is the retrieval filter). -/
structure CallInputs where
  question : String
  chat_history : List ChatTurn
  search_kwargs : Option (List (String × PVal)) := Option.none

/-- `inputs.get("search_kwargs", {})['filter']` with the `except` fallback to
`'No filters applied'` (base.py lines 112-115). -/
def extractFilter (inputs : CallInputs) : PVal :=
  match inputs.search_kwargs with
  | Option.none => PVal.str "No filters applied"
  | some kw =>
    match kw.lookup "filter" with
    | some f => f
    | Option.none => PVal.str "No filters applied"

/-- Static chain configuration read by the orchestrators. -/
structure ChainConfig where
  output_key : String := "answer"
  return_source_documents : Bool := false
  get_chat_history : Option (List ChatTurn → Except String String) := Option.none

/-- External collaborators: question condenser (`question_generator.run`),
document retrieval (`_get_docs`, returning the (documents, post-filter match
count) pair of the store contract), the answer synthesizer
(`combine_docs_chain.combine_docs`, taking documents, question and chat
history), and their async counterparts (`_aget_docs` is annotated to return a
plain document list and `_acall` passes it straight to synthesis). -/
structure Collaborators where
  condense : String → String → String
  getDocs : String → CallInputs → List Document × Nat
  combineDocs : List Document → String → String → String
  agetDocs : String → List Document

/-- Observable external effects of one invocation: how many times the
condenser and the synthesizer were invoked, and the query string passed to
document retrieval (`Option.none` when retrieval was never reached). -/
structure CallTrace where
  condenserCalls : Nat
  synthesizerCalls : Nat
  retrievalQuery : Option String
  deriving DecidableEq, Repr

/-- The `result` dict built by `_call` (base.py lines 148-151, 154-158, 166-170). -/
structure CallResult where
  answer : String
  filter : PVal
  simplified_filter : SimplifiedFilter
  n_comments : Nat

/-- The output mapping of `_call`: the result under the output key, and the
`source_documents` entry (`Option.none` models the key being absent). -/
structure CallOutput where
  result : CallResult
  source_documents : Option (List Document)

/-- Answer text of the `n == 0` branch (base.py line 148). -/
def NO_RESULTS_MESSAGE : String := "No comments found for these attributes"

/-- Answer text of the `0 < n < 10` branch (base.py lines 154-155; Python
concatenates the two adjacent string literals with no separator). -/
def BELOW_THRESHOLD_MESSAGE : String :=
  "No. of comments in this group is less than the confidentiality threshold (10)." ++
  "Please try broadening the group."

/-- `get_chat_history = self.get_chat_history or _get_chat_history`
(base.py line 99). -/
def effectiveGetChatHistory (cfg : ChainConfig) : List ChatTurn → Except String String :=
  match cfg.get_chat_history with
  | some f => f
  | Option.none => getChatHistory

/-- The confidentiality gate and result construction of `_call` (base.py lines
146-174), given the pieces computed before retrieval; `dn` is the
`(relevant_docs, n_post_filters)` pair returned by `_get_docs`. -/
def gateStep (cfg : ChainConfig) (collab : Collaborators) (filter : PVal)
    (simplified_filter : SimplifiedFilter) (new_question chat_history_str : String)
    (condenserCalls : Nat) (dn : List Document × Nat) :
    Except String CallOutput × CallTrace :=
  if dn.2 = 0 then
    (Except.ok { result := { answer := NO_RESULTS_MESSAGE, filter := filter,
                             simplified_filter := simplified_filter, n_comments := dn.2 },
                 source_documents := Option.none },
     { condenserCalls := condenserCalls, synthesizerCalls := 0, retrievalQuery := some new_question })
  else if dn.2 < 10 then
    (Except.ok { result := { answer := BELOW_THRESHOLD_MESSAGE, filter := filter,
                             simplified_filter := simplified_filter, n_comments := dn.2 },
                 source_documents := Option.none },
     { condenserCalls := condenserCalls, synthesizerCalls := 0, retrievalQuery := some new_question })
  else
    let answer := collab.combineDocs dn.1 new_question chat_history_str
    (Except.ok { result := { answer := answer, filter := filter,
                             simplified_filter := simplified_filter, n_comments := dn.2 },
                 source_documents :=
                   if cfg.return_source_documents then some dn.1 else Option.none },
     { condenserCalls := condenserCalls, synthesizerCalls := 1, retrievalQuery := some new_question })

/-- The body of `_call` after the history formatting succeeded (base.py lines
102-174): optional condensation, filter extraction and simplification (raised
simplification exceptions abort before retrieval), then retrieval and gate. -/
def afterHistory (cfg : ChainConfig) (collab : Collaborators) (inputs : CallInputs)
    (chat_history_str : String) : Except String CallOutput × CallTrace :=
  let qc : String × Nat :=
    if chat_history_str = "" then (inputs.question, 0)
    else (collab.condense inputs.question chat_history_str, 1)
  let filter := extractFilter inputs
  match simplifyFilter filter with
  | Except.error e =>
      (Except.error e, { condenserCalls := qc.2, synthesizerCalls := 0, retrievalQuery := Option.none })
  | Except.ok simplified_filter =>
      gateStep cfg collab filter simplified_filter qc.1 chat_history_str qc.2
        (collab.getDocs qc.1 inputs)

/-- `BaseConversationalRetrievalChain._call` (base.py lines 92-175), returning
the output (or the raised exception) together with the trace of external
calls made before returning or raising. -/
def callChain (cfg : ChainConfig) (collab : Collaborators) (inputs : CallInputs) :
    Except String CallOutput × CallTrace :=
  match effectiveGetChatHistory cfg inputs.chat_history with
  | Except.error e => (Except.error e, { condenserCalls := 0, synthesizerCalls := 0, retrievalQuery := Option.none })
  | Except.ok chat_history_str => afterHistory cfg collab inputs chat_history_str

/-- The output mapping of `_acall` (base.py lines 216-219): the raw answer
string under the output key, plus the optional `source_documents` entry. -/
structure ACallOutput where
  answer : String
  source_documents : Option (List Document)

/-- `BaseConversationalRetrievalChain._acall` (base.py lines 193-219): no
filter handling, no confidentiality gate — retrieval followed unconditionally
by synthesis, whose output is returned directly. -/
def acallChain (cfg : ChainConfig) (collab : Collaborators) (inputs : CallInputs) :
    Except String ACallOutput × CallTrace :=
  match effectiveGetChatHistory cfg inputs.chat_history with
  | Except.error e => (Except.error e, { condenserCalls := 0, synthesizerCalls := 0, retrievalQuery := Option.none })
  | Except.ok chat_history_str =>
    let qc : String × Nat :=
      if chat_history_str = "" then (inputs.question, 0)
      else (collab.condense inputs.question chat_history_str, 1)
    let new_question := qc.1
    let docs := collab.agetDocs new_question
    let answer := collab.combineDocs docs new_question chat_history_str
    (Except.ok { answer := answer,
                 source_documents :=
                   if cfg.return_source_documents then some docs else Option.none },
     { condenserCalls := qc.2, synthesizerCalls := 1, retrievalQuery := some new_question })

/-! ### Spec-level description of the supported filter shape

The specification describes the supported filters as "AND of ORs of equality
leaves".  `SCond` is that shape; `sfilterToPVal` encodes it as the Python
dict the source consumes, and `specSimplify` is the simplification described
by the spec's own words (flatten, preserving traversal order, accumulating a
field's values into one list). -/

/-- One condition of the supported shape: an OR of single-field equality
leaves, or a single equality leaf. -/
inductive SCond where
  | orCond (leaves : List (String × String))
  | leaf (field value : String)
  deriving DecidableEq, Repr

/-- The Python dict `{field: {"$eq": value}}`. -/
def leafToPVal (f v : String) : PVal :=
  PVal.dict [(f, PVal.dict [("$eq", PVal.str v)])]

/-- Encode a condition as the Python dict the source consumes. -/
def scondToPVal : SCond → PVal
  | SCond.orCond leaves =>
      PVal.dict [("$or", PVal.list (leaves.map fun fv => leafToPVal fv.1 fv.2))]
  | SCond.leaf f v => leafToPVal f v

/-- Encode an AND of conditions as `{"$and": [...]}`. -/
def sfilterToPVal (conds : List SCond) : PVal :=
  PVal.dict [("$and", PVal.list (conds.map scondToPVal))]

/-- Spec-side simplification of one condition: append each leaf's value to
its field's list in traversal order. -/
def specSimplifyCond (acc : List (String × List PVal)) : SCond → List (String × List PVal)
  | SCond.orCond leaves => leaves.foldl (fun a fv => appendValue a fv.1 (PVal.str fv.2)) acc
  | SCond.leaf f v => appendValue acc f (PVal.str v)

/-- Spec-side simplification of a supported filter. -/
def specSimplify (conds : List SCond) : List (String × List PVal) :=
  conds.foldl specSimplifyCond []

/-- A single-leaf condition must not use the reserved field name `"$or"`,
otherwise the source would mistake it for an OR combinator. -/
def leafFieldOk : SCond → Bool
  | SCond.leaf f _ => f != "$or"
  | SCond.orCond _ => true

/-! ### Concrete instances used by witnesses and counterexamples -/

/-- Default chain configuration. -/
def cfg0 : ChainConfig := {}

/-- Configuration with `return_source_documents = True`. -/
def cfgRS : ChainConfig := { return_source_documents := true }

/-- A one-document retrieval result. -/
def docsOne : List Document := [{ page_content := "doc" }]

/-- Five distinct documents, for the token-budget example. -/
def docs5 : List Document :=
  [{ page_content := "a" }, { page_content := "b" }, { page_content := "c" },
   { page_content := "d" }, { page_content := "e" }]

/-- Plain collaborators: identity condensation, empty retrieval with count 0,
synthesizer answering `"X"`. -/
def collabBase : Collaborators :=
  { condense := fun q _ => q
    getDocs := fun _ _ => ([], 0)
    combineDocs := fun _ _ _ => "X"
    agetDocs := fun _ => [] }

/-- Collaborators whose retrieval reports a post-filter match count of 3. -/
def collabThree : Collaborators :=
  { collabBase with getDocs := fun _ _ => (docsOne, 3), agetDocs := fun _ => docsOne }

/-- Inputs: question `"q"`, empty chat history, no `search_kwargs`. -/
def inputs0 : CallInputs := { question := "q", chat_history := [] }

/-- Inputs carrying a filter with the unsupported `$ne` operator. -/
def badFilterInputs : CallInputs :=
  { question := "q", chat_history := [],
    search_kwargs := some [("filter", PVal.dict [("region", PVal.dict [("$ne", PVal.str "EU")])])] }

/-- The worked example of the spec:
`AND({"region":{"$eq":"EU"}}, OR({"tier":{"$eq":"gold"}},{"tier":{"$eq":"silver"}}))`. -/
def exampleFilter : PVal :=
  PVal.dict [("$and", PVal.list
    [PVal.dict [("region", PVal.dict [("$eq", PVal.str "EU")])],
     PVal.dict [("$or", PVal.list
       [PVal.dict [("tier", PVal.dict [("$eq", PVal.str "gold")])],
        PVal.dict [("tier", PVal.dict [("$eq", PVal.str "silver")])]])]])]

/-! ### Helper lemmas about the orchestrator decomposition -/

theorem callChain_eq_afterHistory (cfg : ChainConfig) (collab : Collaborators)
    (inputs : CallInputs) (s : String)
    (hh : effectiveGetChatHistory cfg inputs.chat_history = Except.ok s) :
    callChain cfg collab inputs = afterHistory cfg collab inputs s := by
  unfold callChain
  rw [hh]

theorem afterHistory_eq_gateStep (cfg : ChainConfig) (collab : Collaborators)
    (inputs : CallInputs) (s : String) (sf : SimplifiedFilter)
    (hs : simplifyFilter (extractFilter inputs) = Except.ok sf) :
    afterHistory cfg collab inputs s =
      gateStep cfg collab (extractFilter inputs) sf
        (if s = "" then inputs.question else collab.condense inputs.question s) s
        (if s = "" then 0 else 1)
        (collab.getDocs
          (if s = "" then inputs.question else collab.condense inputs.question s) inputs) := by
  unfold afterHistory
  dsimp only
  rw [hs]
  by_cases hE : s = "" <;> simp [hE]

theorem afterHistory_of_simplify_error (cfg : ChainConfig) (collab : Collaborators)
    (inputs : CallInputs) (s : String) (e : String)
    (hs : simplifyFilter (extractFilter inputs) = Except.error e) :
    afterHistory cfg collab inputs s =
      (Except.error e,
       { condenserCalls := if s = "" then 0 else 1, synthesizerCalls := 0,
         retrievalQuery := Option.none }) := by
  unfold afterHistory
  dsimp only
  rw [hs]
  by_cases hE : s = "" <;> simp [hE]

theorem gateStep_trace (cfg : ChainConfig) (collab : Collaborators) (filter : PVal)
    (sf : SimplifiedFilter) (nq hist : String) (cc : Nat) (dn : List Document × Nat) :
    (gateStep cfg collab filter sf nq hist cc dn).2.condenserCalls = cc ∧
    (gateStep cfg collab filter sf nq hist cc dn).2.retrievalQuery = some nq ∧
    (gateStep cfg collab filter sf nq hist cc dn).2.synthesizerCalls
      = (if 10 ≤ dn.2 then 1 else 0) := by
  unfold gateStep
  rcases dn with ⟨ds, n⟩
  by_cases h0 : n = 0
  · simp [h0]
  · by_cases h10 : n < 10
    · have hn : ¬ 10 ≤ n := by omega
      simp [h0, h10, hn]
    · have hn : 10 ≤ n := by omega
      simp [h0, h10, hn]

/-! ### Helper lemmas about the token-budget reducer -/

theorem shrinkNumDocs_le (tokens : List Nat) (limit : Nat) :
    ∀ n c, shrinkNumDocs tokens limit n c ≤ n := by
  intro n
  induction n with
  | zero => intro c; simp [shrinkNumDocs]
  | succ k ih =>
    intro c
    unfold shrinkNumDocs
    split
    · exact le_trans (ih _) (Nat.le_succ k)
    · exact le_refl _

theorem shrinkNumDocs_sum_le (tokens : List Nat) (limit : Nat) :
    ∀ n, n ≤ tokens.length →
      (tokens.take (shrinkNumDocs tokens limit n ((tokens.take n).sum))).sum ≤ limit := by
  intro n
  induction n with
  | zero => intro _; simp [shrinkNumDocs]
  | succ k ih =>
    intro hn
    have hk : k < tokens.length := hn
    unfold shrinkNumDocs
    split
    · have harg : (tokens.take (k + 1)).sum - tokens.getD k 0 = (tokens.take k).sum := by
        rw [List.sum_take_succ tokens k hk, List.getD_eq_getElem tokens 0 hk]
        omega
      rw [harg]
      exact ih (le_of_lt hk)
    · next hnot => omega

theorem shrinkNumDocs_of_le (tokens : List Nat) (limit : Nat) (n c : Nat) (h : c ≤ limit) :
    shrinkNumDocs tokens limit n c = n := by
  cases n with
  | zero => rfl
  | succ k =>
    unfold shrinkNumDocs
    rw [if_neg (by omega)]

theorem reduce_some_stuff (cost : String → Nat) (docs : List Document) (limit : Nat)
    (hpos : 0 < limit) :
    reduceTokensBelowLimit (some limit) true cost docs =
      docs.take (shrinkNumDocs (docs.map fun d => cost d.page_content) limit docs.length
        ((docs.map fun d => cost d.page_content).sum)) := by
  have h1 : (limit != 0) = true := by
    simp only [bne_iff_ne, ne_eq]
    omega
  have h2 : (docs.map fun d => cost d.page_content).take docs.length
      = docs.map fun d => cost d.page_content :=
    List.take_of_length_le (by simp)
  unfold reduceTokensBelowLimit
  dsimp only
  rw [h1]
  simp only [Bool.and_self, if_true]
  rw [h2]

/-! ### Claim theorems: token-budget reducer -/

/-- C4: with a positive token budget (and the concatenate-all synthesis
strategy, where the reducer applies), the reducer returns a prefix of the
input, dropping documents from the end while the total cost exceeds the
budget: a total cost within budget returns the full list unchanged; a budget
below every single document's cost returns the empty list; five documents of
cost 100 each with budget 250 return exactly the first two documents. -/
theorem token_budget_reducer_correct (cost : String → Nat) (docs : List Document)
    (limit : Nat) (hpos : 0 < limit) :
    (∃ k, reduceTokensBelowLimit (some limit) true cost docs = docs.take k) ∧
    ((docs.map fun d => cost d.page_content).sum ≤ limit →
      reduceTokensBelowLimit (some limit) true cost docs = docs) ∧
    ((∀ d ∈ docs, limit < cost d.page_content) →
      reduceTokensBelowLimit (some limit) true cost docs = []) ∧
    (docs.length = 5 → (∀ d ∈ docs, cost d.page_content = 100) → limit = 250 →
      reduceTokensBelowLimit (some limit) true cost docs = docs.take 2) := by
  rw [reduce_some_stuff cost docs limit hpos]
  refine ⟨⟨_, rfl⟩, ?_, ?_, ?_⟩
  · intro hsum
    rw [shrinkNumDocs_of_le _ _ _ _ hsum]
    exact List.take_length docs
  · intro hbig
    have h2 : (docs.map fun d => cost d.page_content).take docs.length
        = docs.map fun d => cost d.page_content :=
      List.take_of_length_le (by simp)
    have hble : ((docs.map fun d => cost d.page_content).take
        (shrinkNumDocs (docs.map fun d => cost d.page_content) limit docs.length
          ((docs.map fun d => cost d.page_content).sum))).sum ≤ limit := by
      have h := shrinkNumDocs_sum_le (docs.map fun d => cost d.page_content) limit
        docs.length (by simp)
      rw [h2] at h
      exact h
    rcases docs with _ | ⟨d, ds⟩
    · simp
    · have hk0 : shrinkNumDocs ((d :: ds).map fun d => cost d.page_content) limit
          (d :: ds).length (((d :: ds).map fun d => cost d.page_content).sum) = 0 := by
        by_contra hne
        obtain ⟨k, hkeq⟩ : ∃ k, shrinkNumDocs ((d :: ds).map fun d => cost d.page_content) limit
            (d :: ds).length (((d :: ds).map fun d => cost d.page_content).sum) = k + 1 :=
          ⟨shrinkNumDocs ((d :: ds).map fun d => cost d.page_content) limit
            (d :: ds).length (((d :: ds).map fun d => cost d.page_content).sum) - 1, by omega⟩
        rw [hkeq] at hble
        have hmem : cost d.page_content ∈
            (((d :: ds).map fun d => cost d.page_content).take (k + 1)) := by
          simp [List.take_succ_cons]
        have hle : cost d.page_content ≤
            ((((d :: ds).map fun d => cost d.page_content).take (k + 1))).sum :=
          List.single_le_sum (fun x _ => Nat.zero_le x) _ hmem
        have hgt := hbig d (by simp)
        omega
      rw [hk0]
      rfl
  · intro h5 h100 h250
    subst h250
    have htok : docs.map (fun d => cost d.page_content) = List.replicate 5 100 := by
      have hall : ∀ b ∈ docs.map (fun d => cost d.page_content), b = 100 := by
        intro b hb
        simp only [List.mem_map] at hb
        obtain ⟨d, hd, rfl⟩ := hb
        exact h100 d hd
      have h := List.eq_replicate_length.mpr hall
      rw [List.length_map, h5] at h
      exact h
    rw [htok, h5]
    rw [show shrinkNumDocs (List.replicate 5 100) 250 5 ((List.replicate 5 100).sum) = 2
      from by decide]

/-- Witness for C4 at five concrete documents costing 100 each, budget 250. -/
theorem token_budget_reducer_correct_witness :
    reduceTokensBelowLimit (some 250) true (fun _ => 100) docs5 = docs5.take 2 :=
  (token_budget_reducer_correct (fun _ => 100) docs5 250 (by decide)).2.2.2 rfl
    (fun _ _ => rfl) rfl

/-- C10: trimming happens only when a truthy (present and nonzero) token limit
is configured and the combine chain is the stuff strategy: an absent limit, a
limit of exactly 0, or a non-stuff combine chain returns the document list
unchanged (a zero budget does not yield an empty list). -/
theorem reducer_unchanged_without_truthy_limit_and_stuff (isStuff : Bool)
    (cost : String → Nat) (docs : List Document) (lim : Option Nat) :
    reduceTokensBelowLimit Option.none isStuff cost docs = docs ∧
    reduceTokensBelowLimit (some 0) isStuff cost docs = docs ∧
    reduceTokensBelowLimit lim false cost docs = docs := by
  refine ⟨?_, ?_, ?_⟩
  · simp [reduceTokensBelowLimit]
  · simp [reduceTokensBelowLimit]
  · cases lim <;> simp [reduceTokensBelowLimit]

/-! ### Claim theorems: history formatter -/

theorem getChatHistoryAux_ok_of_formattable (h : List ChatTurn) :
    ∀ buffer, (∀ t ∈ h, isFormattable t = true) →
      ∃ s, getChatHistoryAux buffer h = Except.ok s := by
  induction h with
  | nil => intro buffer _; exact ⟨buffer, rfl⟩
  | cons t rest ih =>
    intro buffer hall
    cases t with
    | message ty c => exact ih _ (fun x hx => hall x (List.mem_cons_of_mem _ hx))
    | tuple elems =>
      rcases elems with _ | ⟨e0, _ | ⟨e1, es⟩⟩
      · exact absurd (hall (ChatTurn.tuple []) (List.mem_cons_self _ _)) (by simp [isFormattable])
      · exact absurd (hall (ChatTurn.tuple [e0]) (List.mem_cons_self _ _)) (by simp [isFormattable])
      · exact ih _ (fun x hx => hall x (List.mem_cons_of_mem _ hx))
    | other =>
      exact absurd (hall ChatTurn.other (List.mem_cons_self _ _)) (by simp [isFormattable])

theorem getChatHistoryAux_error_of_other (h : List ChatTurn) :
    ∀ buffer, (∀ t ∈ h, isFormattable t = true ∨ t = ChatTurn.other) → ChatTurn.other ∈ h →
      getChatHistoryAux buffer h = Except.error "ValueError: Unsupported chat history format" := by
  induction h with
  | nil => intro buffer _ hmem; simp at hmem
  | cons t rest ih =>
    intro buffer hall hmem
    cases t with
    | message ty c =>
      refine ih _ (fun x hx => hall x (List.mem_cons_of_mem _ hx)) ?_
      rcases List.mem_cons.mp hmem with heq | hmemr
      · exact absurd heq (by simp)
      · exact hmemr
    | tuple elems =>
      rcases elems with _ | ⟨e0, _ | ⟨e1, es⟩⟩
      · rcases hall (ChatTurn.tuple []) (List.mem_cons_self _ _) with hf | hf <;>
          simp [isFormattable] at hf
      · rcases hall (ChatTurn.tuple [e0]) (List.mem_cons_self _ _) with hf | hf <;>
          simp [isFormattable] at hf
      · refine ih _ (fun x hx => hall x (List.mem_cons_of_mem _ hx)) ?_
        rcases List.mem_cons.mp hmem with heq | hmemr
        · exact absurd heq (by simp)
        · exact hmemr
    | other => rfl

theorem getChatHistoryAux_error_of_short_tuple (h : List ChatTurn) :
    ∀ buffer, (∀ t ∈ h, isFormattable t = true ∨ isShortTuple t = true) →
      (∃ t ∈ h, isShortTuple t = true) →
      getChatHistoryAux buffer h = Except.error "IndexError: tuple index out of range" := by
  induction h with
  | nil => intro buffer _ hex; simp at hex
  | cons t rest ih =>
    intro buffer hall hex
    cases t with
    | message ty c =>
      refine ih _ (fun x hx => hall x (List.mem_cons_of_mem _ hx)) ?_
      obtain ⟨u, hu, hshort⟩ := hex
      rcases List.mem_cons.mp hu with rfl | hmem
      · simp [isShortTuple] at hshort
      · exact ⟨u, hmem, hshort⟩
    | tuple elems =>
      rcases elems with _ | ⟨e0, _ | ⟨e1, es⟩⟩
      · rfl
      · rfl
      · refine ih _ (fun x hx => hall x (List.mem_cons_of_mem _ hx)) ?_
        obtain ⟨u, hu, hshort⟩ := hex
        rcases List.mem_cons.mp hu with rfl | hmem
        · simp [isShortTuple] at hshort
        · exact ⟨u, hmem, hshort⟩
    | other =>
      rcases hall ChatTurn.other (List.mem_cons_self _ _) with hf | hf <;>
        simp [isFormattable, isShortTuple] at hf

/-- C6 (amended): the formatter raises the `UnsupportedTurnFormat` error
exactly for values that are neither structured messages nor tuples: a history
whose turns are all messages or tuples with at least two elements never
raises (a tuple of more than two elements is formatted from its first two
elements without error); a history containing a neither-message-nor-tuple
turn, and no tuple of fewer than two elements, fails with the
`UnsupportedTurnFormat` error and returns no partial buffer; a history with a
tuple of fewer than two elements (and otherwise formattable turns) instead
fails with an `IndexError`, also returning no partial buffer. -/
theorem history_unsupported_turn (h : List ChatTurn) :
    ((∀ t ∈ h, isFormattable t = true) → ∃ s, getChatHistory h = Except.ok s) ∧
    ((∀ t ∈ h, isFormattable t = true ∨ t = ChatTurn.other) → ChatTurn.other ∈ h →
      getChatHistory h = Except.error "ValueError: Unsupported chat history format") ∧
    ((∀ t ∈ h, isFormattable t = true ∨ isShortTuple t = true) →
      (∃ t ∈ h, isShortTuple t = true) →
      getChatHistory h = Except.error "IndexError: tuple index out of range") :=
  ⟨fun hall => getChatHistoryAux_ok_of_formattable h "" hall,
   fun hall hmem => getChatHistoryAux_error_of_other h "" hall hmem,
   fun hall hex => getChatHistoryAux_error_of_short_tuple h "" hall hex⟩

/-- Witness for C6 (amended): a well-formed pair followed by a
neither-message-nor-tuple turn aborts with the unsupported-format error. -/
theorem history_unsupported_turn_witness :
    getChatHistory [ChatTurn.tuple ["hi", "hello"], ChatTurn.other]
      = Except.error "ValueError: Unsupported chat history format" :=
  (history_unsupported_turn _).2.1 (by decide) (by decide)

/-- Counterexample to C6 as stated: a three-element tuple is neither a
structured message nor a two-element pair, yet the formatter succeeds on it
(no `UnsupportedTurnFormat` error), formatting its first two elements —
because the source branches on `isinstance(dialogue_turn, tuple)` of any
arity. -/
theorem history_unsupported_turn_counterexample :
    (ChatTurn.tuple ["a", "b", "c"]).isStructuredMessage = false ∧
    (ChatTurn.tuple ["a", "b", "c"]).isTwoElementPair = false ∧
    getChatHistory [ChatTurn.tuple ["a", "b", "c"]]
      = Except.ok "\nHuman: a\nAssistant: b" :=
  ⟨rfl, rfl, rfl⟩

/-- C5: an empty history formats to the empty string; the condenser is then
bypassed (no condensation call is made) and the raw question is what reaches
document retrieval as the query. -/
theorem empty_history_bypasses_condenser (cfg : ChainConfig) (collab : Collaborators)
    (inputs : CallInputs) (hc : cfg.get_chat_history = Option.none)
    (hh : inputs.chat_history = []) :
    getChatHistory [] = Except.ok "" ∧
    (callChain cfg collab inputs).2.condenserCalls = 0 ∧
    ∀ q, (callChain cfg collab inputs).2.retrievalQuery = some q → q = inputs.question := by
  have hok : effectiveGetChatHistory cfg inputs.chat_history = Except.ok "" := by
    unfold effectiveGetChatHistory
    rw [hc, hh]
    rfl
  rw [callChain_eq_afterHistory cfg collab inputs "" hok]
  refine ⟨rfl, ?_⟩
  rcases hs : simplifyFilter (extractFilter inputs) with e | sf
  · rw [afterHistory_of_simplify_error cfg collab inputs "" e hs]
    exact ⟨rfl, fun q hq => by simp at hq⟩
  · rw [afterHistory_eq_gateStep cfg collab inputs "" sf hs]
    have hq1 : (if ("" : String) = "" then inputs.question
        else collab.condense inputs.question "") = inputs.question := if_pos rfl
    have hq2 : (if ("" : String) = "" then (0 : Nat) else 1) = 0 := if_pos rfl
    rw [hq1, hq2]
    obtain ⟨h1, h2, _⟩ := gateStep_trace cfg collab (extractFilter inputs) sf
      inputs.question "" 0 (collab.getDocs inputs.question inputs)
    refine ⟨h1, fun q hq => ?_⟩
    rw [h2] at hq
    exact (Option.some.injEq _ _ ▸ hq).symm

/-- Witness for C5 with the default configuration and empty-history inputs. -/
theorem empty_history_bypasses_condenser_witness :
    getChatHistory [] = Except.ok "" ∧
    (callChain cfg0 collabBase inputs0).2.condenserCalls = 0 ∧
    ∀ q, (callChain cfg0 collabBase inputs0).2.retrievalQuery = some q →
      q = inputs0.question :=
  empty_history_bypasses_condenser cfg0 collabBase inputs0 rfl rfl

/-! ### Claim theorems: filter simplifier -/

theorem simplifyLeaf_single (acc : List (String × List PVal)) (f v : String) :
    simplifyLeaf acc (leafToPVal f v) = Except.ok (appendValue acc f (PVal.str v)) := rfl

theorem simplifyLeaf_fold (leaves : List (String × String)) :
    ∀ acc, List.foldlM simplifyLeaf acc (leaves.map fun fv => leafToPVal fv.1 fv.2) =
      Except.ok (leaves.foldl (fun a fv => appendValue a fv.1 (PVal.str fv.2)) acc) := by
  induction leaves with
  | nil => intro acc; rfl
  | cons x xs ih =>
    intro acc
    rw [List.map_cons, List.foldlM_cons, simplifyLeaf_single]
    show List.foldlM simplifyLeaf (appendValue acc x.1 (PVal.str x.2)) (xs.map fun fv => leafToPVal fv.1 fv.2) = _
    rw [ih, List.foldl_cons]

theorem simplifyCond_spec (c : SCond) (hok : leafFieldOk c = true)
    (acc : List (String × List PVal)) :
    simplifyCond acc (scondToPVal c) = Except.ok (specSimplifyCond acc c) := by
  cases c with
  | orCond leaves =>
    show simplifyCond acc (PVal.dict [("$or", PVal.list (leaves.map fun fv => leafToPVal fv.1 fv.2))]) = _
    unfold simplifyCond
    rw [if_pos (by rfl)]
    show (List.foldlM simplifyLeaf acc (leaves.map fun fv => leafToPVal fv.1 fv.2)) = _
    rw [simplifyLeaf_fold]
    rfl
  | leaf f v =>
    have hf : f ≠ "$or" := by simpa [leafFieldOk] using hok
    have hbe : ("$or" == f) = false := beq_eq_false_iff_ne.mpr (Ne.symm hf)
    unfold simplifyCond
    rw [if_neg ?hkey]
    case hkey =>
      show ¬ PVal.hasKey (scondToPVal (SCond.leaf f v)) "$or" = true
      simp [scondToPVal, leafToPVal, PVal.hasKey, List.lookup, hbe]
    show simplifyLeaf acc (leafToPVal f v) = _
    rw [simplifyLeaf_single]
    rfl

theorem simplifyCond_fold (conds : List SCond) :
    ∀ acc, (∀ c ∈ conds, leafFieldOk c = true) →
      List.foldlM simplifyCond acc (conds.map scondToPVal) =
        Except.ok (conds.foldl specSimplifyCond acc) := by
  induction conds with
  | nil => intro acc _; rfl
  | cons c cs ih =>
    intro acc hok
    rw [List.map_cons, List.foldlM_cons, simplifyCond_spec c (hok c (by simp)) acc]
    show List.foldlM simplifyCond (specSimplifyCond acc c) (cs.map scondToPVal) = _
    rw [ih _ (fun x hx => hok x (List.mem_cons_of_mem _ hx)), List.foldl_cons]

theorem simplifyFilter_and (L : List PVal) :
    simplifyFilter (PVal.dict [("$and", PVal.list L)]) =
      (List.foldlM simplifyCond [] L) >>= fun m =>
        Except.ok (SimplifiedFilter.mapping m) := rfl

/-- C3: the simplifier maps an absent filter (`None`, or no filter supplied in
the inputs) to the sentinel; any supported AND-of-ORs-of-equality filter to
the field-to-ordered-values mapping described by the spec (accumulating a
field's values across leaves in traversal order); and the spec's worked
example to `region ↦ [EU], tier ↦ [gold, silver]`. -/
theorem filter_simplifier_correct :
    simplifyFilter PVal.none = Except.ok SimplifiedFilter.sentinel ∧
    (∀ inputs : CallInputs, inputs.search_kwargs = Option.none →
      simplifyFilter (extractFilter inputs) = Except.ok SimplifiedFilter.sentinel) ∧
    (∀ conds : List SCond, (∀ c ∈ conds, leafFieldOk c = true) →
      simplifyFilter (sfilterToPVal conds) =
        Except.ok (SimplifiedFilter.mapping (specSimplify conds))) ∧
    simplifyFilter exampleFilter =
      Except.ok (SimplifiedFilter.mapping
        [("region", [PVal.str "EU"]), ("tier", [PVal.str "gold", PVal.str "silver"])]) := by
  refine ⟨rfl, ?_, ?_, ?_⟩
  · intro inputs hsk
    unfold extractFilter
    rw [hsk]
    rfl
  · intro conds hok
    show simplifyFilter (PVal.dict [("$and", PVal.list (conds.map scondToPVal))]) = _
    rw [simplifyFilter_and, simplifyCond_fold conds [] hok]
    rfl
  · rfl

/-- Witness for C3 applying the supported-shape conjunct to the spec's worked
example written as an AND of a leaf and an OR condition. -/
theorem filter_simplifier_correct_witness :
    simplifyFilter (sfilterToPVal
      [SCond.leaf "region" "EU", SCond.orCond [("tier", "gold"), ("tier", "silver")]]) =
      Except.ok (SimplifiedFilter.mapping (specSimplify
        [SCond.leaf "region" "EU", SCond.orCond [("tier", "gold"), ("tier", "silver")]])) :=
  filter_simplifier_correct.2.2.1
    [SCond.leaf "region" "EU", SCond.orCond [("tier", "gold"), ("tier", "silver")]]
    (by decide)

/-! ### Claim theorems: confidentiality gate and orchestration -/

/-- Composing the pipeline stages: when history formatting and filter
simplification succeed, the call is the gate applied to the retrieval
outcome. -/
theorem callChain_gate (cfg : ChainConfig) (collab : Collaborators) (inputs : CallInputs)
    (hist : String) (sf : SimplifiedFilter) (nq : String) (docs : List Document) (n : Nat)
    (hh : effectiveGetChatHistory cfg inputs.chat_history = Except.ok hist)
    (hs : simplifyFilter (extractFilter inputs) = Except.ok sf)
    (hq : nq = if hist = "" then inputs.question else collab.condense inputs.question hist)
    (hd : collab.getDocs nq inputs = (docs, n)) :
    callChain cfg collab inputs =
      gateStep cfg collab (extractFilter inputs) sf nq hist
        (if hist = "" then 0 else 1) (docs, n) := by
  rw [callChain_eq_afterHistory cfg collab inputs hist hh,
      afterHistory_eq_gateStep cfg collab inputs hist sf hs, ← hq, hd]

theorem gateStep_result (cfg : ChainConfig) (collab : Collaborators) (filter : PVal)
    (sf : SimplifiedFilter) (nq hist : String) (cc : Nat) (dn : List Document × Nat) :
    (gateStep cfg collab filter sf nq hist cc dn).1.map (fun out => out.result.n_comments)
      = Except.ok dn.2 := by
  unfold gateStep
  by_cases h0 : dn.2 = 0
  · rw [if_pos h0]
    show Except.ok dn.2 = _
    rw [h0]
  · rw [if_neg h0]
    by_cases h10 : dn.2 < 10
    · rw [if_pos h10]
      rfl
    · rw [if_neg h10]
      rfl

/-- C1 (amended): the synchronous gate outcome is a function of the
post-filter match count `n` alone: `n = 0` answers with the fixed text
"No comments found for these attributes" and no synthesis; `0 < n < 10`
answers with the fixed below-threshold text and no synthesis; `n ≥ 10`
invokes the synthesizer exactly once and returns its output verbatim. -/
theorem confidentiality_gate (cfg : ChainConfig) (collab : Collaborators) (inputs : CallInputs)
    (hist : String) (sf : SimplifiedFilter) (nq : String) (docs : List Document) (n : Nat)
    (hh : effectiveGetChatHistory cfg inputs.chat_history = Except.ok hist)
    (hs : simplifyFilter (extractFilter inputs) = Except.ok sf)
    (hq : nq = if hist = "" then inputs.question else collab.condense inputs.question hist)
    (hd : collab.getDocs nq inputs = (docs, n)) :
    (n = 0 →
      (callChain cfg collab inputs).1 = Except.ok
        { result := { answer := NO_RESULTS_MESSAGE, filter := extractFilter inputs,
                      simplified_filter := sf, n_comments := n },
          source_documents := Option.none } ∧
      (callChain cfg collab inputs).2.synthesizerCalls = 0) ∧
    (0 < n → n < 10 →
      (callChain cfg collab inputs).1 = Except.ok
        { result := { answer := BELOW_THRESHOLD_MESSAGE, filter := extractFilter inputs,
                      simplified_filter := sf, n_comments := n },
          source_documents := Option.none } ∧
      (callChain cfg collab inputs).2.synthesizerCalls = 0) ∧
    (10 ≤ n →
      (callChain cfg collab inputs).2.synthesizerCalls = 1 ∧
      (callChain cfg collab inputs).1 = Except.ok
        { result := { answer := collab.combineDocs docs nq hist, filter := extractFilter inputs,
                      simplified_filter := sf, n_comments := n },
          source_documents :=
            if cfg.return_source_documents then some docs else Option.none }) := by
  rw [callChain_gate cfg collab inputs hist sf nq docs n hh hs hq hd]
  unfold gateStep
  dsimp only
  refine ⟨?_, ?_, ?_⟩
  · intro h0
    rw [if_pos h0]
    exact ⟨rfl, rfl⟩
  · intro hpos hlt
    rw [if_neg (by omega), if_pos hlt]
    exact ⟨rfl, rfl⟩
  · intro hge
    rw [if_neg (by omega), if_neg (by omega)]
    exact ⟨rfl, rfl⟩

/-- Collaborators whose retrieval reports a post-filter match count of 15. -/
def collabFifteen : Collaborators :=
  { collabBase with getDocs := fun _ _ => (docsOne, 15), agetDocs := fun _ => docsOne }

/-- Witness for C1 at a concrete answerable run (count 15, synthesizer
answering "X"), exercising the `n ≥ 10` branch. -/
theorem confidentiality_gate_witness :
    (callChain cfg0 collabFifteen inputs0).2.synthesizerCalls = 1 ∧
    (callChain cfg0 collabFifteen inputs0).1 = Except.ok
      { result := { answer := collabFifteen.combineDocs docsOne "q" "",
                    filter := extractFilter inputs0,
                    simplified_filter := SimplifiedFilter.sentinel, n_comments := 15 },
        source_documents :=
          if cfg0.return_source_documents then some docsOne else Option.none } :=
  (confidentiality_gate cfg0 collabFifteen inputs0 "" SimplifiedFilter.sentinel "q" docsOne 15
    rfl rfl rfl rfl).2.2 (by omega)

/-- Counterexample to C1 as stated: at a run with post-filter count 0 the
answer text is "No comments found for these attributes", not the claimed
"No items found for these attributes". -/
theorem gate_no_results_message_counterexample :
    (callChain cfg0 collabBase inputs0).1 = Except.ok
      { result := { answer := "No comments found for these attributes",
                    filter := PVal.str "No filters applied",
                    simplified_filter := SimplifiedFilter.sentinel, n_comments := 0 },
        source_documents := Option.none } ∧
    "No comments found for these attributes" ≠ "No items found for these attributes" :=
  ⟨rfl, by decide⟩

/-- C2 (divergence of the async path): on identical inputs with identical
collaborator values (count 3, below threshold, synthesizer answering "X"),
the synchronous path refuses without invoking the synthesizer while the
asynchronous path invokes the synthesizer and returns its raw output — the
two paths do not produce identical decisions or result structures. -/
theorem sync_async_divergence :
    (callChain cfg0 collabThree inputs0).2.synthesizerCalls = 0 ∧
    (callChain cfg0 collabThree inputs0).1 = Except.ok
      { result := { answer := BELOW_THRESHOLD_MESSAGE, filter := PVal.str "No filters applied",
                    simplified_filter := SimplifiedFilter.sentinel, n_comments := 3 },
        source_documents := Option.none } ∧
    (acallChain cfg0 collabThree inputs0).2.synthesizerCalls = 1 ∧
    (acallChain cfg0 collabThree inputs0).1 = Except.ok
      { answer := "X", source_documents := Option.none } ∧
    "X" ≠ BELOW_THRESHOLD_MESSAGE :=
  ⟨rfl, rfl, rfl, rfl, by decide⟩

/-- C7 (amended): an unsupported filter shape makes the simplification step
raise, and the raised error aborts the entire synchronous invocation before
retrieval: no retrieval call is made, no synthesis happens, and the error is
surfaced to the caller — the retrieval step does not proceed. -/
theorem filter_error_aborts_invocation (cfg : ChainConfig) (collab : Collaborators)
    (inputs : CallInputs) (hist : String) (e : String)
    (hh : effectiveGetChatHistory cfg inputs.chat_history = Except.ok hist)
    (hs : simplifyFilter (extractFilter inputs) = Except.error e) :
    (callChain cfg collab inputs).1 = Except.error e ∧
    (callChain cfg collab inputs).2.retrievalQuery = Option.none ∧
    (callChain cfg collab inputs).2.synthesizerCalls = 0 := by
  rw [callChain_eq_afterHistory cfg collab inputs hist hh,
      afterHistory_of_simplify_error cfg collab inputs hist e hs]
  exact ⟨rfl, rfl, rfl⟩

/-- Witness for C7 (amended) at the `$ne` filter. -/
theorem filter_error_aborts_invocation_witness :
    (callChain cfg0 collabBase badFilterInputs).1 = Except.error "KeyError: $eq" ∧
    (callChain cfg0 collabBase badFilterInputs).2.retrievalQuery = Option.none ∧
    (callChain cfg0 collabBase badFilterInputs).2.synthesizerCalls = 0 :=
  filter_error_aborts_invocation cfg0 collabBase badFilterInputs "" "KeyError: $eq" rfl rfl

/-- Counterexample to C7 as stated: with the unsupported `$ne` operator the
whole synchronous invocation raises `KeyError` before retrieval — the
retrieval step does not proceed using the raw filter. -/
theorem filter_error_counterexample :
    (callChain cfg0 collabBase badFilterInputs).1 = Except.error "KeyError: $eq" ∧
    (callChain cfg0 collabBase badFilterInputs).2.retrievalQuery = Option.none :=
  ⟨rfl, rfl⟩

/-- Supporting fact about `_call` line 146 onward: when retrieval does hand
the gate a `(documents, count)` pair, the confidentiality decision depends on
the count component only — two runs whose retrieval reports the same count
with different document lists (of any lengths) make the same synthesis
decision, and the count, not the list length, is reported as `n_comments`. -/
theorem count_component_drives_gate (cfg : ChainConfig) (collab : Collaborators)
    (inputs : CallInputs) (docs1 docs2 : List Document) (n : Nat) :
    (callChain cfg { collab with getDocs := fun _ _ => (docs1, n) } inputs).2.synthesizerCalls
      = (callChain cfg { collab with getDocs := fun _ _ => (docs2, n) } inputs).2.synthesizerCalls ∧
    ∀ out, (callChain cfg { collab with getDocs := fun _ _ => (docs1, n) } inputs).1
        = Except.ok out → out.result.n_comments = n := by
  cases hh : effectiveGetChatHistory cfg inputs.chat_history with
  | error e =>
    unfold callChain
    rw [hh]
    exact ⟨rfl, fun out hout => by simp at hout⟩
  | ok s =>
    rw [callChain_eq_afterHistory cfg { collab with getDocs := fun _ _ => (docs1, n) } inputs s hh,
        callChain_eq_afterHistory cfg { collab with getDocs := fun _ _ => (docs2, n) } inputs s hh]
    cases hs : simplifyFilter (extractFilter inputs) with
    | error e =>
      rw [afterHistory_of_simplify_error _ _ _ _ _ hs, afterHistory_of_simplify_error _ _ _ _ _ hs]
      exact ⟨rfl, fun out hout => by simp at hout⟩
    | ok sf =>
      rw [afterHistory_eq_gateStep _ _ _ _ _ hs, afterHistory_eq_gateStep _ _ _ _ _ hs]
      dsimp only
      unfold gateStep
      dsimp only
      by_cases h0 : n = 0
      · rw [if_pos h0, if_pos h0]
        refine ⟨rfl, fun out hout => ?_⟩
        simp only [Except.ok.injEq] at hout
        rw [← hout]
      · rw [if_neg h0, if_neg h0]
        by_cases h10 : n < 10
        · rw [if_pos h10, if_pos h10]
          refine ⟨rfl, fun out hout => ?_⟩
          simp only [Except.ok.injEq] at hout
          rw [← hout]
        · rw [if_neg h10, if_neg h10]
          refine ⟨rfl, fun out hout => ?_⟩
          simp only [Except.ok.injEq] at hout
          rw [← hout]

/-- Concrete instance of the supporting fact: counts equal to 3 with lists of
lengths 0 and 1 make the same decision. -/
theorem count_component_drives_gate_witness :
    (callChain cfg0 { collabBase with getDocs := fun _ _ => ([], 3) } inputs0).2.synthesizerCalls
      = (callChain cfg0 { collabBase with getDocs := fun _ _ => (docsOne, 3) } inputs0).2.synthesizerCalls :=
  (count_component_drives_gate cfg0 collabBase inputs0 [] docsOne 3).1

/-- C9 (amended): `source_documents` is attached only in the answerable
outcome: present (with the retrieved list) exactly when configured and
`n ≥ 10`; in the refusal outcomes the key is absent even when configured, and
it is always absent when not configured. -/
theorem source_documents_only_when_answerable (cfg : ChainConfig) (collab : Collaborators)
    (inputs : CallInputs) (hist : String) (sf : SimplifiedFilter) (nq : String)
    (docs : List Document) (n : Nat)
    (hh : effectiveGetChatHistory cfg inputs.chat_history = Except.ok hist)
    (hs : simplifyFilter (extractFilter inputs) = Except.ok sf)
    (hq : nq = if hist = "" then inputs.question else collab.condense inputs.question hist)
    (hd : collab.getDocs nq inputs = (docs, n)) :
    ∀ out, (callChain cfg collab inputs).1 = Except.ok out →
      out.source_documents =
        if cfg.return_source_documents ∧ 10 ≤ n then some docs else Option.none := by
  rw [callChain_gate cfg collab inputs hist sf nq docs n hh hs hq hd]
  intro out hout
  unfold gateStep at hout
  dsimp only at hout
  by_cases h0 : n = 0
  · rw [if_pos h0] at hout
    simp only [Except.ok.injEq] at hout
    rw [← hout, if_neg (by rintro ⟨-, hge⟩; omega)]
  · rw [if_neg h0] at hout
    by_cases h10 : n < 10
    · rw [if_pos h10] at hout
      simp only [Except.ok.injEq] at hout
      rw [← hout, if_neg (by rintro ⟨-, hge⟩; omega)]
    · rw [if_neg h10] at hout
      simp only [Except.ok.injEq] at hout
      rw [← hout]
      dsimp only
      by_cases hrs : cfg.return_source_documents = true
      · have hc : cfg.return_source_documents = true ∧ 10 ≤ n := ⟨hrs, by omega⟩
        rw [if_pos hc, if_pos hrs]
      · have hc : ¬ (cfg.return_source_documents = true ∧ 10 ≤ n) := fun hx => hrs hx.1
        rw [if_neg hc, if_neg hrs]

/-- C8 (code mismatch): at a concrete run (retriever returning one document,
no token limit, stuff chain) `ConversationalRetrievalChain._get_docs` returns
the bare one-element document list — not a (documents, count) pair — and the
pair destructuring of `_call` line 146 applied to that list raises
`ValueError` instead of yielding a RetrievalOutcome. -/
theorem getDocs_variant_returns_list_not_pair :
    conversationalRetrieval_getDocs (fun _ => docsOne) Option.none true (fun _ => 0) "q"
      = docsOne ∧
    unpackTwo (conversationalRetrieval_getDocs (fun _ => docsOne) Option.none true
        (fun _ => 0) "q")
      = Except.error "ValueError: unpacking requires exactly two values" :=
  ⟨rfl, rfl⟩

/-- Witness for C9 (amended) at a configured, answerable run (count 15). -/
theorem source_documents_only_when_answerable_witness :
    ({ result := { answer := "X", filter := PVal.str "No filters applied",
                   simplified_filter := SimplifiedFilter.sentinel, n_comments := 15 },
       source_documents := some docsOne } : CallOutput).source_documents
      = if cfgRS.return_source_documents ∧ 10 ≤ 15 then some docsOne else Option.none :=
  source_documents_only_when_answerable cfgRS collabFifteen inputs0 "" SimplifiedFilter.sentinel
    "q" docsOne 15 rfl rfl rfl rfl _ rfl

/-- Counterexample to C9 as stated: configured to return source documents,
below-threshold run (count 3) — the output carries no `source_documents`
entry despite the configuration. -/
theorem source_documents_refusal_counterexample :
    cfgRS.return_source_documents = true ∧
    (callChain cfgRS collabThree inputs0).1 = Except.ok
      { result := { answer := BELOW_THRESHOLD_MESSAGE, filter := PVal.str "No filters applied",
                    simplified_filter := SimplifiedFilter.sentinel, n_comments := 3 },
        source_documents := Option.none } :=
  ⟨rfl, rfl⟩

end ConvRetrieval
